import Mathlib

/-!
Verification development for the streaming speech-recognition session
manager of this repository (src/server.py, WebSocket section, with the
duplicate in src/server_https.py).

The embedding models:
  * Python values reaching the transcript extractor as an inductive
    `PyVal` (None, str, int, list, dict, generic object with attributes);
  * `StreamingRecognitionCallback` (`on_event` / `on_complete` /
    `_extract_transcript`) as a pure state machine over `CbState`;
  * the module-level session registry `active_sessions` (a Python dict
    guarded by `sessions_lock`) as an association list with Python-dict
    update semantics, and the socket handlers `handle_connect`,
    `handle_disconnect`, `handle_start_recognition`, `handle_audio_data`,
    `handle_stop_recognition` as step functions returning the new state,
    the events emitted to the client, and the calls made on the provider
    SDK objects (`Recognition.start`, `.stop`, `.send_audio_frame`).

External nondeterminism (whether a provider call raises) is supplied as
data: each `Session` records whether its `stop()` raises, and a start
event carries whether `Recognition.start()` raises.  The provider
`send_audio_frame` is modelled as non-raising; no claim concerns its
failure path.  All handler bodies are wrapped in try/except in the
source; an exception caught by the outer handler is modelled by the
corresponding branch of the step function.
-/

namespace Server

/-- Python values as they reach `_extract_transcript` and the audio
decoder: `pyNone` is Python `None`, `obj` is a generic non-dict object
carrying named attributes (modelling `hasattr`/attribute access on the
DashScope `RecognitionResult`). -/
inductive PyVal where
  | pyNone
  | pyStr (s : String)
  | pyInt (n : Int)
  | pyList (xs : List PyVal)
  | pyDict (kvs : List (String × PyVal))
  | obj (attrs : List (String × PyVal))
deriving Repr

/-- Python truthiness: `None`, `""`, `0`, `[]`, `{}` are falsy; a plain
object is truthy. -/
def truthy : PyVal → Bool
  | .pyNone => false
  | .pyStr s => !(s == "")
  | .pyInt n => !(n == 0)
  | .pyList xs => !xs.isEmpty
  | .pyDict kvs => !kvs.isEmpty
  | .obj _ => true

/-- First-match lookup in an association list; models both Python dict
indexing / `.get` (dict keys are unique) and attribute lookup. -/
def assocGet {α : Type} : List (String × α) → String → Option α
  | [], _ => Option.none
  | (k, v) :: rest, key => if k = key then some v else assocGet rest key

/-- Whether a value is a Python string. -/
def isPyStr : PyVal → Bool
  | .pyStr _ => true
  | _ => false

/-- The `output` selection at the top of `_extract_transcript`
(server.py:398-403): `result.output` if the attribute exists, else
`result.response.output` if both attributes exist, else `result.get('output')`
when `result` is a dict, else `None`. -/
def computeOutput (result : PyVal) : Option PyVal :=
  match result with
  | .obj attrs =>
    match assocGet attrs "output" with
    | some v => some v
    | Option.none =>
      match assocGet attrs "response" with
      | some (.obj rattrs) => assocGet rattrs "output"
      | _ => Option.none
  | .pyDict kvs => assocGet kvs "output"
  | _ => Option.none

/-- `''.join(texts)` (server.py:420): succeeds only when every element is
a string; a non-string element makes `join` raise `TypeError`, which the
surrounding `except` turns into `''`. -/
def joinTexts : List PyVal → Option String
  | [] => some ""
  | .pyStr s :: rest => (joinTexts rest).map (fun r => s ++ r)
  | _ :: _ => Option.none

/-- The loop at server.py:415-418: collect `sentence['text']` for each
list element that is a dict containing the key `'text'`. -/
def collectTexts : List PyVal → List PyVal
  | [] => []
  | .pyDict skvs :: rest =>
    match assocGet skvs "text" with
    | some t => t :: collectTexts rest
    | Option.none => collectTexts rest
  | _ :: rest => collectTexts rest

/-- The tail of the dict-output case of `_extract_transcript`
(server.py:424-432): `if 'text' in output and output['text']: return
output['text']`; the following `isinstance(output, str)` check cannot
fire for a dict, so the fall-through returns `''`. -/
def textBranch (okvs : List (String × PyVal)) : PyVal :=
  match assocGet okvs "text" with
  | some t => if truthy t then t else .pyStr ""
  | Option.none => .pyStr ""

/-- `StreamingRecognitionCallback._extract_transcript` (server.py:388-436).
Total by construction, mirroring the blanket `except Exception: return ''`:
the one internal raise site, `''.join` over a non-string element, maps to
the `joinTexts = none` branch.  Values taken from `'text'` fields are
returned unchanged, without a string check, exactly as in the source. -/
def extractTranscript (result : PyVal) : PyVal :=
  if truthy result then
    match computeOutput result with
    | Option.none => .pyStr ""
    | some output =>
      if truthy output then
        match output with
        | .pyDict okvs =>
          match assocGet okvs "sentence" with
          | some (.pyList sentences) =>
            let texts := collectTexts sentences
            if texts.isEmpty then textBranch okvs
            else
              match joinTexts texts with
              | some s => .pyStr s
              | Option.none => .pyStr ""
          | some (.pyDict skvs) =>
            match assocGet skvs "text" with
            | some t => t
            | Option.none => textBranch okvs
          | some _ => textBranch okvs
          | Option.none => textBranch okvs
        | .pyStr s => .pyStr s
        | _ => .pyStr ""
      else .pyStr ""
  else .pyStr ""

/-- Events emitted to the client over the socket.  Handler-side `emit`
and callback-side `socketio.emit` are collapsed into one type; payload
dictionaries are abstracted to their distinguishing fields.  Error
payloads built from `str(e)` of a caught exception are tagged
`exceptional`. -/
inductive Emit where
  | connected (conn : String)
  | recognitionStarted (conn : String)
  | recognitionStopped (conn : String)
  | errApiKeyNotConfigured
  | errNoActiveSession
  | errExceptional
  | recognitionResult (transcript : PyVal) (isFinal : Bool)
  | recognitionComplete (transcript : PyVal) (isFinal : Bool)
deriving Repr

/-- Mutable state of one `StreamingRecognitionCallback`
(server.py:321-324): `partial_results` starts `[]`, `final_result`
starts `None`. -/
structure CbState where
  interimResults : List PyVal
  finalResult : Option PyVal
deriving Repr

/-- Initial callback state. -/
def CbState.init : CbState := { interimResults := [], finalResult := Option.none }

/-- `on_event` (server.py:334-356): extract the transcript; only when it
is truthy, emit `recognition_result` with `is_final: false`, append to
`partial_results` and overwrite `final_result`.  A falsy transcript
leaves the state untouched and emits nothing. -/
def on_event (st : CbState) (result : PyVal) : CbState × List Emit :=
  let t := extractTranscript result
  if truthy t then
    ({ interimResults := st.interimResults ++ [t], finalResult := some t },
     [Emit.recognitionResult t false])
  else (st, [])

/-- `on_complete` (server.py:358-370): emit `recognition_complete` with
`is_final: true` carrying `self.final_result or ''`. -/
def on_complete (st : CbState) : List Emit :=
  let ft : PyVal :=
    match st.finalResult with
    | some t => if truthy t then t else .pyStr ""
    | Option.none => .pyStr ""
  [Emit.recognitionComplete ft true]

/-- One provider callback delivered to a session's callback object. -/
inductive CbEvent where
  | ev (result : PyVal)
  | complete
deriving Repr

/-- Run a sequence of provider callbacks against a callback state,
concatenating the emitted client events in delivery order. -/
def runCb : CbState → List CbEvent → CbState × List Emit
  | st, [] => (st, [])
  | st, .ev r :: rest =>
    let p := on_event st r
    let q := runCb p.1 rest
    (q.1, p.2 ++ q.2)
  | st, .complete :: rest =>
    let es := on_complete st
    let q := runCb st rest
    (q.1, es ++ q.2)

/-- One stored `Recognition` SDK object together with the counters the
server attaches to it (server.py:497-499).  `sid` is the object's
identity (used to count calls on it in the action trace); `stopFails`
records the external fact of whether this object's `stop()` call will
raise, fixed at creation as the session's provider behaviour. -/
structure Session where
  sid : Nat
  stopFails : Bool
  frameCount : Nat
  byteCount : Nat
deriving Repr

/-- Python dict assignment `d[k] = v`: replace the value at an existing
key in place, otherwise append the new entry. -/
def dictSet {α : Type} : List (String × α) → String → α → List (String × α)
  | [], k, v => [(k, v)]
  | (k', v') :: rest, k, v =>
    if k' = k then (k, v) :: rest else (k', v') :: dictSet rest k v

/-- Python `del d[k]`: remove the (unique) entry at the key. -/
def dictDel {α : Type} : List (String × α) → String → List (String × α)
  | [], _ => []
  | (k', v') :: rest, k =>
    if k' = k then rest else (k', v') :: dictDel rest k

/-- Number of entries stored under a key; Python dicts keep this at most
one by construction, which the association-list model must prove. -/
def countKey {α : Type} : List (String × α) → String → Nat
  | [], _ => 0
  | (k', _) :: rest, k => (if k' = k then 1 else 0) + countKey rest k

/-- Calls made on provider SDK objects, recorded as a trace.  `sid` names
the `Recognition` object the method is invoked on. -/
inductive Action where
  | stopCall (sid : Nat)
  | startCall (sid : Nat)
  | sendFrame (sid : Nat) (bs : List Nat)
deriving Repr

/-- Server state: the configured-credential flag `DASHSCOPE_API_KEY`
(fixed at startup), the `active_sessions` dict, and a supply of fresh
identities for newly constructed `Recognition` objects. -/
structure GState where
  hasKey : Bool
  registry : List (String × Session)
  nextSid : Nat
deriving Repr

/-- Initial server state: empty `active_sessions`. -/
def initState (hk : Bool) : GState := { hasKey := hk, registry := [], nextSid := 0 }

/-- The payload of one `audio_data` message (server.py:533-551): a dict
with an `audio` key holding an int16 sample list, already-raw bytes, or
anything else (the unrecognized `else` branch). -/
inductive AudioPayload where
  | dictAudio (samples : List Int)
  | rawBytes (bs : List Nat)
  | other
deriving Repr

/-- Little-endian two's-complement encoding of one 16-bit sample, as laid
down by `struct.pack('<h', s)`: low byte first. -/
def toLE16 (s : Int) : List Nat :=
  [((s % 65536).toNat) % 256, ((s % 65536).toNat) / 256]

/-- `struct.pack(f'<{n}h', *samples)` (server.py:546): concatenate the
little-endian encodings; `struct.error` is raised (modelled as `none`)
when a sample is outside the signed 16-bit range. -/
def pack16le : List Int → Option (List Nat)
  | [] => some []
  | s :: rest =>
    if -32768 ≤ s ∧ s ≤ 32767 then
      (pack16le rest).map (fun bs => toLE16 s ++ bs)
    else Option.none

/-- Outcome of decoding one audio payload (server.py:534-551). -/
inductive DecodeResult where
  | ok (bs : List Nat)
  | packFailed
  | unrecognized
deriving Repr

/-- The decode step of `handle_audio_data`: a dict-with-audio payload is
packed (a pack failure raises into the handler's `except`); raw bytes
pass through unchanged; any other type hits the `else` branch. -/
def decodeAudio : AudioPayload → DecodeResult
  | .dictAudio samples =>
    match pack16le samples with
    | some bs => .ok bs
    | Option.none => .packFailed
  | .rawBytes bs => .ok bs
  | .other => .unrecognized

/-- `handle_connect` (server.py:442-446): emit `connected`, touch nothing. -/
def handleConnect (g : GState) (conn : String) : GState × List Emit × List Action :=
  (g, [Emit.connected conn], [])

/-- `handle_disconnect` (server.py:448-462): if a session exists, call
its `stop()` and then `del` it — both inside one `try`, so when `stop()`
raises the deletion is skipped and the entry stays in the dict; the
`except` only logs.  No event is emitted either way. -/
def handleDisconnect (g : GState) (conn : String) : GState × List Emit × List Action :=
  match assocGet g.registry conn with
  | some r =>
    if r.stopFails then (g, [], [Action.stopCall r.sid])
    else ({ g with registry := dictDel g.registry conn }, [], [Action.stopCall r.sid])
  | Option.none => (g, [], [])

/-- `handle_start_recognition` (server.py:464-515).  Without a credential:
emit an error and return before any session work.  Otherwise, under the
lock: call `stop()` on any existing session for the connection inside a
`try/except: pass` (so its outcome never alters control flow — the model
therefore ignores the old session's `stopFails`), construct a fresh
`Recognition`, call its `start()`, initialize the counters, store it
(overwriting the old entry), and emit `recognition_started`.  If
`start()` raises, the outer `except` emits an error; nothing was stored,
so the old entry — already stopped — is still in the dict. -/
def handleStart (g : GState) (conn : String) (startRaises newStopFails : Bool) :
    GState × List Emit × List Action :=
  if g.hasKey then
    let stopActs : List Action :=
      match assocGet g.registry conn with
      | some old => [Action.stopCall old.sid]
      | Option.none => []
    if startRaises then
      ({ g with nextSid := g.nextSid + 1 },
       [Emit.errExceptional], stopActs ++ [Action.startCall g.nextSid])
    else
      let fresh : Session :=
        { sid := g.nextSid, stopFails := newStopFails, frameCount := 0, byteCount := 0 }
      ({ g with registry := dictSet g.registry conn fresh, nextSid := g.nextSid + 1 },
       [Emit.recognitionStarted conn], stopActs ++ [Action.startCall g.nextSid])
  else
    (g, [Emit.errApiKeyNotConfigured], [])

/-- `handle_audio_data` (server.py:517-571): no session → error event and
return; recognized payload → decode, send the frame, bump the counters;
pack failure → the raised `struct.error` reaches the handler's `except`,
which emits an error (frame dropped, session untouched); unrecognized
payload type → `logger.error` then a bare `return`: frame dropped, no
event emitted, session untouched. -/
def handleAudio (g : GState) (conn : String) (payload : AudioPayload) :
    GState × List Emit × List Action :=
  match assocGet g.registry conn with
  | Option.none => (g, [Emit.errNoActiveSession], [])
  | some r =>
    match decodeAudio payload with
    | .ok bs =>
      let r2 : Session :=
        { r with frameCount := r.frameCount + 1, byteCount := r.byteCount + bs.length }
      ({ g with registry := dictSet g.registry conn r2 }, [], [Action.sendFrame r.sid bs])
    | .packFailed => (g, [Emit.errExceptional], [])
    | .unrecognized => (g, [], [])

/-- `handle_stop_recognition` (server.py:573-603): with a session, call
`stop()` then `del` then emit `recognition_stopped` — all in one `try`,
so a raising `stop()` skips the deletion and the `except` emits an error
instead; with no session, log a warning and do nothing. -/
def handleStop (g : GState) (conn : String) : GState × List Emit × List Action :=
  match assocGet g.registry conn with
  | some r =>
    if r.stopFails then (g, [Emit.errExceptional], [Action.stopCall r.sid])
    else ({ g with registry := dictDel g.registry conn },
          [Emit.recognitionStopped conn], [Action.stopCall r.sid])
  | Option.none => (g, [], [])

/-- One inbound transport event.  A start event carries the external
nondeterminism of the session it creates: whether `start()` raises and
whether the new object's `stop()` will raise. -/
inductive Event where
  | connect (conn : String)
  | disconnect (conn : String)
  | startRecognition (conn : String) (startRaises newStopFails : Bool)
  | audioData (conn : String) (payload : AudioPayload)
  | stopRecognition (conn : String)
deriving Repr

/-- Dispatch one event to its handler. -/
def step (g : GState) : Event → GState × List Emit × List Action
  | .connect conn => handleConnect g conn
  | .disconnect conn => handleDisconnect g conn
  | .startRecognition conn sr nf => handleStart g conn sr nf
  | .audioData conn p => handleAudio g conn p
  | .stopRecognition conn => handleStop g conn

/-- Run a sequence of events, keeping only the state. -/
def runEvents (g : GState) : List Event → GState
  | [] => g
  | e :: rest => runEvents (step g e).1 rest

/-! ### Registry lemmas -/

theorem assocGet_nonempty {α : Type} {l : List (String × α)} {k : String} {v : α}
    (h : assocGet l k = some v) : l.isEmpty = false := by
  cases l with
  | nil => simp [assocGet] at h
  | cons hd tl => rfl

theorem countKey_dictSet_ne {α : Type} (d : List (String × α)) (k : String) (v : α)
    (c : String) (hne : c ≠ k) : countKey (dictSet d k v) c = countKey d c := by
  induction d with
  | nil =>
    have hkc : ¬(k = c) := fun hh => hne hh.symm
    simp [dictSet, countKey, hkc]
  | cons hd tl ih =>
    obtain ⟨k', v'⟩ := hd
    by_cases hk : k' = k
    · subst hk
      have hkc : ¬(k' = c) := fun hh => hne hh.symm
      simp [dictSet, countKey, hkc]
    · simp [dictSet, hk, countKey, ih]

theorem countKey_dictSet_self {α : Type} (d : List (String × α)) (k : String) (v : α) :
    countKey (dictSet d k v) k = max 1 (countKey d k) := by
  induction d with
  | nil => simp [dictSet, countKey]
  | cons hd tl ih =>
    obtain ⟨k', v'⟩ := hd
    by_cases hk : k' = k
    · subst hk
      simp [dictSet, countKey]
    · simp [dictSet, hk, countKey, ih]

theorem countKey_dictSet_le {α : Type} (d : List (String × α)) (k : String) (v : α)
    (h : ∀ c, countKey d c ≤ 1) : ∀ c, countKey (dictSet d k v) c ≤ 1 := by
  intro c
  by_cases hc : c = k
  · subst hc
    rw [countKey_dictSet_self]
    exact max_le (le_refl 1) (h c)
  · rw [countKey_dictSet_ne d k v c hc]
    exact h c

theorem countKey_dictDel_le {α : Type} (d : List (String × α)) (k : String) (c : String) :
    countKey (dictDel d k) c ≤ countKey d c := by
  induction d with
  | nil => simp [dictDel]
  | cons hd tl ih =>
    obtain ⟨k', v'⟩ := hd
    by_cases hk : k' = k
    · subst hk
      simp [dictDel, countKey]
    · simp [dictDel, hk, countKey]
      omega

/-- The registry invariant: every connection id has at most one entry. -/
def RegInv (d : List (String × Session)) : Prop := ∀ c, countKey d c ≤ 1

/-- Every handler leaves the registry alone, performs one Python dict
assignment, or performs one Python dict deletion. -/
theorem step_registry_shape (g : GState) (e : Event) :
    (step g e).1.registry = g.registry ∨
    (∃ conn v, (step g e).1.registry = dictSet g.registry conn v) ∨
    (∃ conn, (step g e).1.registry = dictDel g.registry conn) := by
  cases e with
  | connect conn => exact Or.inl rfl
  | disconnect conn =>
    simp only [step, handleDisconnect]
    cases hc : assocGet g.registry conn with
    | none => exact Or.inl rfl
    | some r =>
      by_cases hf : r.stopFails
      · simp [hf]
      · simp [hf]
  | startRecognition conn sr nf =>
    simp only [step, handleStart]
    by_cases hk : g.hasKey
    · simp only [hk, if_true]
      by_cases hs : sr
      · simp [hs]
      · simp only [hs, if_false]
        exact Or.inr (Or.inl ⟨conn, _, rfl⟩)
    · simp [hk]
  | audioData conn p =>
    simp only [step, handleAudio]
    cases hc : assocGet g.registry conn with
    | none => exact Or.inl rfl
    | some r =>
      cases hd : decodeAudio p with
      | ok bs =>
        simp only []
        exact Or.inr (Or.inl ⟨conn, _, rfl⟩)
      | packFailed => exact Or.inl rfl
      | unrecognized => exact Or.inl rfl
  | stopRecognition conn =>
    simp only [step, handleStop]
    cases hc : assocGet g.registry conn with
    | none => exact Or.inl rfl
    | some r =>
      by_cases hf : r.stopFails
      · simp [hf]
      · simp [hf]

theorem RegInv_step (g : GState) (e : Event) (h : RegInv g.registry) :
    RegInv (step g e).1.registry := by
  rcases step_registry_shape g e with heq | ⟨conn, v, heq⟩ | ⟨conn, heq⟩
  · rw [heq]; exact h
  · rw [heq]; exact countKey_dictSet_le _ _ _ h
  · rw [heq]; intro c; exact le_trans (countKey_dictDel_le _ _ _) (h c)

theorem RegInv_runEvents (evs : List Event) :
    ∀ g : GState, RegInv g.registry → RegInv (runEvents g evs).registry := by
  induction evs with
  | nil => intro g h; exact h
  | cons e rest ih =>
    intro g h
    exact ih _ (RegInv_step g e h)

/-! ### Claims -/

/-- Claim C1: for every connection identifier, after any sequence of
connect, start_recognition, audio_data, stop_recognition and disconnect
events run from the initial server state, the `active_sessions` registry
contains at most one entry for that connection — lookup returns at most
one live session per connection at any instant. -/
theorem registry_at_most_one_session (hk : Bool) (evs : List Event) (conn : String) :
    countKey (runEvents (initState hk) evs).registry conn ≤ 1 :=
  RegInv_runEvents evs (initState hk) (fun c => by simp [initState, countKey]) conn

/-- Claim C2, evaluated at the failing input: disconnecting the
connection "c", whose active session (identity 7) has a raising
`stop()`, calls `stop()` exactly once but leaves the session in the
registry — the `del` sits inside the same `try` as `stop()`
(server.py:456-459), so the claimed unconditional removal does not
happen. -/
theorem disconnect_stop_raises_keeps_entry :
    handleDisconnect
      { hasKey := true,
        registry := [("c", { sid := 7, stopFails := true, frameCount := 0, byteCount := 0 })],
        nextSid := 8 } "c" =
      ({ hasKey := true,
         registry := [("c", { sid := 7, stopFails := true, frameCount := 0, byteCount := 0 })],
         nextSid := 8 },
       [], [Action.stopCall 7]) := rfl

/-- Claim C3: handling start_recognition for a connection that already
has a session calls the old session's `stop()` exactly once, before the
replacement is constructed, started and installed; the result is the
same whatever the old session's `stop()` does (its exception is
swallowed by the inner `try/except: pass`, server.py:479-483), so a
faulty old session never prevents creation of the new one. -/
theorem start_stops_old_before_install (g : GState) (conn : String) (old : Session)
    (nf : Bool) (hkey : g.hasKey = true) (hold : assocGet g.registry conn = some old) :
    handleStart g conn false nf =
      ({ hasKey := g.hasKey,
         registry := dictSet g.registry conn
           { sid := g.nextSid, stopFails := nf, frameCount := 0, byteCount := 0 },
         nextSid := g.nextSid + 1 },
       [Emit.recognitionStarted conn],
       [Action.stopCall old.sid, Action.startCall g.nextSid]) := by
  simp [handleStart, hkey, hold]

theorem start_stops_old_before_install_witness :
    handleStart
      { hasKey := true,
        registry := [("c", { sid := 3, stopFails := true, frameCount := 1, byteCount := 2 })],
        nextSid := 4 } "c" false false =
      ({ hasKey := true,
         registry := [("c", { sid := 4, stopFails := false, frameCount := 0, byteCount := 0 })],
         nextSid := 5 },
       [Emit.recognitionStarted "c"],
       [Action.stopCall 3, Action.startCall 4]) :=
  start_stops_old_before_install
    { hasKey := true,
      registry := [("c", { sid := 3, stopFails := true, frameCount := 1, byteCount := 2 })],
      nextSid := 4 } "c"
    { sid := 3, stopFails := true, frameCount := 1, byteCount := 2 } false rfl rfl

/-- Claim C4, refuted at a concrete input: an `on_event` whose result
extracts to the empty transcript (here, a `None` result) updates nothing
and notifies nobody — the body of `on_event` runs only under
`if transcript:` (server.py:342), so the claimed per-event update and
notification do not happen for every event. -/
theorem on_event_falsy_transcript_silent :
    on_event CbState.init PyVal.pyNone = (CbState.init, []) ∧
    extractTranscript PyVal.pyNone = PyVal.pyStr "" :=
  ⟨rfl, rfl⟩

/-- Claim C4 as amended: for every provider result whose extracted
transcript is truthy, `on_event` overwrites `final_result` with that
transcript, appends it to `partial_results`, and immediately notifies
the client with one `recognition_result` event carrying it with
`is_final: false`. -/
theorem on_event_truthy_updates_and_notifies (st : CbState) (r : PyVal)
    (h : truthy (extractTranscript r) = true) :
    on_event st r =
      ({ interimResults := st.interimResults ++ [extractTranscript r],
         finalResult := some (extractTranscript r) },
       [Emit.recognitionResult (extractTranscript r) false]) := by
  simp [on_event, h]

theorem on_event_truthy_updates_and_notifies_witness :
    on_event CbState.init (PyVal.pyDict [("output", PyVal.pyDict [("text", PyVal.pyStr "hi")])]) =
      ({ interimResults := [PyVal.pyStr "hi"], finalResult := some (PyVal.pyStr "hi") },
       [Emit.recognitionResult (PyVal.pyStr "hi") false]) :=
  on_event_truthy_updates_and_notifies CbState.init
    (PyVal.pyDict [("output", PyVal.pyDict [("text", PyVal.pyStr "hi")])]) rfl

/-- Claim C5: the callback sequence extracting "he" then "hello" followed
by completion yields exactly recognition_result "he", recognition_result
"hello", then recognition_complete "hello" with `is_final: true`; and in
general `on_complete` emits exactly one `recognition_complete` event
carrying the accumulated final text (`final_result`), i.e. the
transcript of the last truthy result event received. -/
theorem complete_carries_last_result :
    (runCb CbState.init
       [CbEvent.ev (PyVal.pyDict [("output", PyVal.pyDict [("text", PyVal.pyStr "he")])]),
        CbEvent.ev (PyVal.pyDict [("output", PyVal.pyDict [("text", PyVal.pyStr "hello")])]),
        CbEvent.complete]).2 =
      [Emit.recognitionResult (PyVal.pyStr "he") false,
       Emit.recognitionResult (PyVal.pyStr "hello") false,
       Emit.recognitionComplete (PyVal.pyStr "hello") true] ∧
    (∀ st : CbState, ∀ t : PyVal, st.finalResult = some t → truthy t = true →
      on_complete st = [Emit.recognitionComplete t true]) := by
  constructor
  · rfl
  · intro st t h ht
    simp [on_complete, h, ht]

theorem complete_carries_last_result_witness :
    on_complete { interimResults := [], finalResult := some (PyVal.pyStr "hello") } =
      [Emit.recognitionComplete (PyVal.pyStr "hello") true] :=
  complete_carries_last_result.2
    { interimResults := [], finalResult := some (PyVal.pyStr "hello") }
    (PyVal.pyStr "hello") rfl rfl

/-- Claim C6, refuted at a concrete input: an `audio_data` payload of
unrecognized type, sent while a session is live, is dropped with NO
`recognition_error` event — the `else` branch (server.py:549-551) only
logs and returns, so the claimed client error report does not happen. -/
theorem audio_unrecognized_payload_silent :
    handleAudio
      { hasKey := true,
        registry := [("c", { sid := 1, stopFails := false, frameCount := 0, byteCount := 0 })],
        nextSid := 2 } "c" AudioPayload.other =
      ({ hasKey := true,
         registry := [("c", { sid := 1, stopFails := false, frameCount := 0, byteCount := 0 })],
         nextSid := 2 },
       [], []) := rfl

/-- Claim C6 as amended: with a live session, an undecodable audio_data
frame is never fed to the provider and the session survives in the
registry; but the client is notified with a recognition_error event only
when a recognized int16-shape payload fails to pack (the raised
`struct.error` reaching the handler's `except`) — an unrecognized
payload type is dropped silently, with only a server-side log. -/
theorem audio_undecodable_frame_dropped (g : GState) (conn : String) (r : Session)
    (h : assocGet g.registry conn = some r) :
    handleAudio g conn AudioPayload.other = (g, [], []) ∧
    (∀ samples : List Int, pack16le samples = Option.none →
      handleAudio g conn (AudioPayload.dictAudio samples) = (g, [Emit.errExceptional], [])) := by
  constructor
  · simp [handleAudio, h, decodeAudio]
  · intro samples hs
    simp [handleAudio, h, decodeAudio, hs]

theorem audio_undecodable_frame_dropped_witness :
    handleAudio
      { hasKey := true,
        registry := [("c", { sid := 1, stopFails := false, frameCount := 0, byteCount := 0 })],
        nextSid := 2 } "c" (AudioPayload.dictAudio [40000]) =
      ({ hasKey := true,
         registry := [("c", { sid := 1, stopFails := false, frameCount := 0, byteCount := 0 })],
         nextSid := 2 },
       [Emit.errExceptional], []) :=
  (audio_undecodable_frame_dropped
    { hasKey := true,
      registry := [("c", { sid := 1, stopFails := false, frameCount := 0, byteCount := 0 })],
      nextSid := 2 } "c"
    { sid := 1, stopFails := false, frameCount := 0, byteCount := 0 } rfl).2 [40000] rfl

/-- Claim C7: `struct.pack(f'<{n}h', *samples)` maps n in-range samples
to exactly 2 x n bytes, each sample little-endian two's-complement with
no framing, so [1, -1, 256] encodes to 01 00 FF FF 00 01; and an
already-binary payload passes through the decoder unchanged
(server.py:546-548). -/
theorem codec_pack16le_spec :
    (∀ samples : List Int, ∀ bs : List Nat,
      pack16le samples = some bs → bs.length = 2 * samples.length) ∧
    pack16le [1, -1, 256] = some [1, 0, 255, 255, 0, 1] ∧
    (∀ bs : List Nat, decodeAudio (AudioPayload.rawBytes bs) = DecodeResult.ok bs) := by
  refine ⟨?_, rfl, fun bs => rfl⟩
  intro samples
  induction samples with
  | nil =>
    intro bs h
    simp [pack16le] at h
    simp [← h]
  | cons s rest ih =>
    intro bs h
    by_cases hr : -32768 ≤ s ∧ s ≤ 32767
    · rw [pack16le, if_pos hr] at h
      cases hrest : pack16le rest with
      | none => rw [hrest] at h; simp at h
      | some bs' =>
        rw [hrest] at h
        have h2 : toLE16 s ++ bs' = bs := by simpa using h
        rw [← h2]
        simp [toLE16, List.length_append, ih bs' hrest]
        omega
    · rw [pack16le, if_neg hr] at h
      simp at h

theorem codec_pack16le_spec_witness :
    pack16le [5] = some [5, 0] ∧ ([5, 0] : List Nat).length = 2 * ([5] : List Int).length :=
  ⟨rfl, codec_pack16le_spec.1 [5] [5, 0] rfl⟩

/-- Claim C8: handling start_recognition with no configured credential
emits the error synchronously and returns before any session work: the
state (registry and identity supply) is unchanged and no provider call
(`start`, `stop`, or otherwise) is made (server.py:470-474). -/
theorem start_no_key_no_work (g : GState) (conn : String) (sr nf : Bool)
    (h : g.hasKey = false) :
    handleStart g conn sr nf = (g, [Emit.errApiKeyNotConfigured], []) := by
  simp [handleStart, h]

theorem start_no_key_no_work_witness :
    handleStart (initState false) "c" false false =
      (initState false, [Emit.errApiKeyNotConfigured], []) :=
  start_no_key_no_work (initState false) "c" false false rfl

/-- Claim C9: handling stop_recognition for a connection with no session
in the registry is an idempotent no-op — no error event, no stopped
event, no provider call, and the registry untouched (server.py:595-596). -/
theorem stop_absent_is_noop (g : GState) (conn : String)
    (h : assocGet g.registry conn = Option.none) :
    handleStop g conn = (g, [], []) := by
  simp [handleStop, h]

theorem stop_absent_is_noop_witness :
    handleStop (initState true) "c" = (initState true, [], []) :=
  stop_absent_is_noop (initState true) "c" rfl

/-- Claim C10, refuted at a concrete input: the extractor is not
string-valued on every input — a dict output whose truthy `text` field
holds the integer 5 is returned as-is (server.py:425-426 has no type
check on `output['text']`), so `_extract_transcript` returns the
non-string 5 there. -/
theorem extract_nonstring_return :
    extractTranscript (PyVal.pyDict [("output", PyVal.pyDict [("text", PyVal.pyInt 5)])]) =
      PyVal.pyInt 5 ∧
    isPyStr (extractTranscript
      (PyVal.pyDict [("output", PyVal.pyDict [("text", PyVal.pyInt 5)])])) = false :=
  ⟨rfl, rfl⟩

/-- Claim C10 as amended: the extractor never raises (it is total, the
blanket `except` returning the empty string), and returns the empty
string in every unmatched case — a `None` result, a non-dict object
without `output` or `response` attributes, a dict without an `output`
key, an output that is a list (no known shape), and a dict output with
neither `sentence` nor `text` keys; when a dict output contains both a
`sentence` dict shape and a truthy `text` field, the `sentence` shape
takes priority — but a matched text value is returned as-is, without a
string type check. -/
theorem extract_empty_on_unmatched_and_sentence_priority :
    (extractTranscript PyVal.pyNone = PyVal.pyStr "") ∧
    (∀ attrs : List (String × PyVal),
      assocGet attrs "output" = Option.none → assocGet attrs "response" = Option.none →
      extractTranscript (PyVal.obj attrs) = PyVal.pyStr "") ∧
    (∀ kvs : List (String × PyVal), assocGet kvs "output" = Option.none →
      extractTranscript (PyVal.pyDict kvs) = PyVal.pyStr "") ∧
    (∀ kvs : List (String × PyVal), ∀ xs : List PyVal,
      assocGet kvs "output" = some (PyVal.pyList xs) →
      extractTranscript (PyVal.pyDict kvs) = PyVal.pyStr "") ∧
    (∀ kvs okvs : List (String × PyVal),
      assocGet kvs "output" = some (PyVal.pyDict okvs) →
      assocGet okvs "sentence" = Option.none → assocGet okvs "text" = Option.none →
      extractTranscript (PyVal.pyDict kvs) = PyVal.pyStr "") ∧
    (∀ kvs okvs skvs : List (String × PyVal), ∀ t u : PyVal,
      assocGet kvs "output" = some (PyVal.pyDict okvs) →
      assocGet okvs "sentence" = some (PyVal.pyDict skvs) →
      assocGet skvs "text" = some t →
      assocGet okvs "text" = some u → truthy u = true →
      extractTranscript (PyVal.pyDict kvs) = t) := by
  refine ⟨rfl, ?_, ?_, ?_, ?_, ?_⟩
  · intro attrs h1 h2
    simp [extractTranscript, truthy, computeOutput, h1, h2]
  · intro kvs h
    cases kvs with
    | nil => rfl
    | cons hd tl => simp [extractTranscript, truthy, computeOutput, h]
  · intro kvs xs h
    cases kvs with
    | nil => simp [assocGet] at h
    | cons hd tl =>
      cases xs with
      | nil => simp [extractTranscript, truthy, computeOutput, h]
      | cons y ys => simp [extractTranscript, truthy, computeOutput, h]
  · intro kvs okvs h1 h2 h3
    cases kvs with
    | nil => simp [assocGet] at h1
    | cons hd tl =>
      cases okvs with
      | nil => simp [extractTranscript, truthy, computeOutput, h1]
      | cons ohd otl => simp [extractTranscript, truthy, computeOutput, textBranch, h1, h2, h3]
  · intro kvs okvs skvs t u h1 h2 h3 h4 h5
    cases kvs with
    | nil => simp [assocGet] at h1
    | cons hd tl =>
      cases okvs with
      | nil => simp [assocGet] at h2
      | cons ohd otl => simp [extractTranscript, truthy, computeOutput, h1, h2, h3]

theorem extract_sentence_priority_witness :
    extractTranscript
      (PyVal.pyDict [("output", PyVal.pyDict
        [("sentence", PyVal.pyDict [("text", PyVal.pyStr "a")]),
         ("text", PyVal.pyStr "b")])]) = PyVal.pyStr "a" :=
  extract_empty_on_unmatched_and_sentence_priority.2.2.2.2.2
    [("output", PyVal.pyDict
      [("sentence", PyVal.pyDict [("text", PyVal.pyStr "a")]),
       ("text", PyVal.pyStr "b")])]
    [("sentence", PyVal.pyDict [("text", PyVal.pyStr "a")]), ("text", PyVal.pyStr "b")]
    [("text", PyVal.pyStr "a")]
    (PyVal.pyStr "a") (PyVal.pyStr "b") rfl rfl rfl rfl rfl

end Server
